import Mathlib

/-!
Verification of the StreamTo encoder-control backend.

This development is a shallow embedding, in Lean 4, of the logic of
`src/backend/ffmpegController.js` and `src/backend/deviceManager.js`.
The repository file `ffmpegController.js` contains two historical
implementations; the live one (the one whose `hookLogs(proc, logCb, statsCb)`
signature `main.js` calls, and whose multi-destination strategy uses the
`tee` muxer) is embedded here as the current code, and the legacy
per-destination builder is embedded separately where a claim refers to it.

Conventions of the embedding:
* JavaScript strings are Lean `String`s; `String.prototype.includes`
  becomes `jsIncludes`, `trim` becomes `jsTrim`, `split(/\r?\n/)` becomes
  `splitLines`.
* `parseInt`/`parseFloat` on the digit strings captured by the regexes
  become exact numbers (`Nat` / `Rat`); the decimal values occurring here
  are represented exactly.
* The asynchronous control flow of `startStream` (synchronous guard,
  awaited binary probe, spawn, exit handler, 2000 ms liveness timer) is
  embedded as explicit atomic steps on a supervisor state, and runs are
  explicit sequences of those steps.
-/

namespace StreamTo

/-- `isPrefixOfChars pat l` : `pat` is a leading segment of `l`. -/
def isPrefixOfChars : List Char → List Char → Bool
  | [], _ => true
  | _ :: _, [] => false
  | a :: as, b :: bs => a = b && isPrefixOfChars as bs

/-- `hasInfixChars pat l` : `pat` occurs contiguously somewhere in `l`
(leftmost-position search, like `String.prototype.includes`). -/
def hasInfixChars (pat : List Char) : List Char → Bool
  | [] => isPrefixOfChars pat []
  | a :: t => isPrefixOfChars pat (a :: t) || hasInfixChars pat t

/-- JavaScript `s.includes(pat)`. -/
def jsIncludes (s pat : String) : Bool := hasInfixChars pat.data s.data

/-- Error classification performed by the `exit` handler of `startStream`
(`ffmpegController.js`, the cascade assigning `errorMessage`): a pure
first-match cascade over the accumulated stderr text. -/
def classifyError (e : String) : String :=
  if jsIncludes e "Error in the pull function" || jsIncludes e "IO error: End of file" then
    "RTMP connection failed - check stream key and network connection"
  else if jsIncludes e "Error number -10053" then
    "Network connection lost - one RTMP server may be unreachable"
  else if jsIncludes e "Connection refused" then
    "RTMP server connection refused - check URL and network"
  else if jsIncludes e "No such file or directory" then
    "Device not found - camera or microphone unavailable"
  else if jsIncludes e "Permission denied" then
    "Device access denied - check permissions"
  else if jsIncludes e "already in use" || jsIncludes e "Could not run graph" then
    "Device busy - close other applications using camera/mic (Chrome, Skype, Teams, etc.)"
  else if jsIncludes e "Could not find audio only device" then
    "Audio device not found - try refreshing devices or check microphone connection"
  else if jsIncludes e "Invalid data found" then
    "Invalid RTMP stream key or URL format"
  else if jsIncludes e "real-time buffer" && jsIncludes e "too full" then
    "Camera buffer overflow - try reducing video quality or closing other apps"
  else if jsIncludes e "baseline profile doesn\x27t support" then
    "Camera format incompatible - switching to main profile"
  else if jsIncludes e "Error setting profile" then
    "Video encoding profile error - using compatible settings"
  else
    "Streaming failed - check logs for details"

/-- The generic fallback category of the classifier. -/
def genericFailureMessage : String := "Streaming failed - check logs for details"

/-- The connection-refused category of the classifier. -/
def connectionRefusedMessage : String := "RTMP server connection refused - check URL and network"

/-- C7: the error classifier is a pure first-match function over the
accumulated stderr text: an input that contains `"Connection refused"` and
matches none of the higher-priority patterns is mapped to the
connection-refused category, and an input matching no known pattern at all
is mapped to the generic fallback category. -/
theorem classifyError_connection_refused_and_fallback :
    (∀ e : String,
      jsIncludes e "Connection refused" = true →
      jsIncludes e "Error in the pull function" = false →
      jsIncludes e "IO error: End of file" = false →
      jsIncludes e "Error number -10053" = false →
      classifyError e = connectionRefusedMessage) ∧
    (∀ e : String,
      jsIncludes e "Error in the pull function" = false →
      jsIncludes e "IO error: End of file" = false →
      jsIncludes e "Error number -10053" = false →
      jsIncludes e "Connection refused" = false →
      jsIncludes e "No such file or directory" = false →
      jsIncludes e "Permission denied" = false →
      jsIncludes e "already in use" = false →
      jsIncludes e "Could not run graph" = false →
      jsIncludes e "Could not find audio only device" = false →
      jsIncludes e "Invalid data found" = false →
      jsIncludes e "real-time buffer" = false →
      jsIncludes e "baseline profile doesn\x27t support" = false →
      jsIncludes e "Error setting profile" = false →
      classifyError e = genericFailureMessage) := by
  constructor
  · intro e h1 h2 h3 h4
    simp [classifyError, h1, h2, h3, h4, connectionRefusedMessage]
  · intro e h1 h2 h3 h4 h5 h6 h7 h8 h9 h10 h11 h12 h13
    simp [classifyError, h1, h2, h3, h4, h5, h6, h7, h8, h9, h10, h11, h12, h13,
      genericFailureMessage]

/-- Witness for C7: concrete stderr texts exercising both branches of the
theorem. -/
theorem classifyError_connection_refused_and_fallback_witness :
    classifyError "rtmp://x: Connection refused" = connectionRefusedMessage ∧
    classifyError "some totally unknown diagnostic" = genericFailureMessage := by
  constructor
  · exact classifyError_connection_refused_and_fallback.1
      "rtmp://x: Connection refused" (by decide) (by decide) (by decide) (by decide)
  · exact classifyError_connection_refused_and_fallback.2
      "some totally unknown diagnostic" (by decide) (by decide) (by decide) (by decide)
      (by decide) (by decide) (by decide) (by decide) (by decide) (by decide) (by decide)
      (by decide) (by decide)

/-! ## Command construction (current implementation)

Embedding of the argument construction inside `startStream` of the live
implementation: `rtmps.length === 1` selects the single-destination argument
list, otherwise the `tee`-muxer argument list whose final argument is
`rtmps.map(url => "[f=flv:onfail=ignore]" + url).join("|")`. -/

/-- The `video=<v>:audio=<a>` input selector string. -/
def inputStringOf (video audio : String) : String :=
  "video=" ++ video ++ ":audio=" ++ audio

/-- The two shapes the argument construction can take. -/
inductive OutputMode
  | single
  | multiOutput
deriving DecidableEq, Repr

/-- The branch selector of the argument construction (`rtmps.length === 1`). -/
def modeOf (rtmps : List String) : OutputMode :=
  if rtmps.length = 1 then .single else .multiOutput

/-- Per-destination tee segment `[f=flv:onfail=ignore]<url>`. -/
def teeGroup (url : String) : String := "[f=flv:onfail=ignore]" ++ url

/-- The per-destination tee segments, in destination-list order. -/
def teeGroups (rtmps : List String) : List String := rtmps.map teeGroup

/-- JavaScript `Array.prototype.join("|")`. -/
def joinBar : List String → String
  | [] => ""
  | [x] => x
  | x :: y :: rest => x ++ "|" ++ joinBar (y :: rest)

/-- The tee output argument: the joined per-destination segments. -/
def teeOutput (rtmps : List String) : String := joinBar (teeGroups rtmps)

/-- Arguments before the input string, single-destination branch. -/
def singleHeadArgs : List String := ["-y", "-f", "dshow", "-rtbufsize", "100M", "-i"]

/-- Encoding arguments after the input string, single-destination branch. -/
def singleEncodeArgs : List String :=
  ["-c:v", "libx264", "-preset", "ultrafast", "-tune", "zerolatency",
   "-pix_fmt", "yuv420p", "-b:v", "800k", "-maxrate", "800k", "-bufsize", "1600k",
   "-g", "50", "-r", "25", "-c:a", "aac", "-b:a", "128k", "-f", "flv"]

/-- The full single-destination argument vector. -/
def singleModeArgs (input url : String) : List String :=
  singleHeadArgs ++ [input] ++ singleEncodeArgs ++ [url]

/-- Arguments before the input string, multi-destination branch. -/
def multiHeadArgs : List String := ["-y", "-f", "dshow", "-rtbufsize", "200M", "-i"]

/-- Encoding arguments after the input string, multi-destination branch. -/
def multiEncodeArgs : List String :=
  ["-c:v", "libx264", "-preset", "ultrafast", "-tune", "zerolatency",
   "-pix_fmt", "yuv420p", "-b:v", "600k", "-maxrate", "600k", "-bufsize", "1200k",
   "-g", "50", "-r", "20", "-c:a", "aac", "-b:a", "96k",
   "-f", "tee", "-map", "0:v", "-map", "0:a"]

/-- The full multi-destination argument vector: base arguments followed by the
single tee output argument. -/
def multiModeArgs (input : String) (rtmps : List String) : List String :=
  multiHeadArgs ++ [input] ++ multiEncodeArgs ++ [teeOutput rtmps]

/-- The argument construction of `startStream` (current implementation). -/
def buildStreamArgs (video audio : String) (rtmps : List String) : List String :=
  match modeOf rtmps with
  | .single => singleModeArgs (inputStringOf video audio) (rtmps.headD "")
  | .multiOutput => multiModeArgs (inputStringOf video audio) rtmps

namespace Legacy

/-!  The legacy (first, historical) implementation of `startStream` built one
output argument group per destination inside `rtmps.forEach`; only that group
construction is embedded here (the `DEBUG_RECORD` test output is absent, as in
a default environment).  -/

/-- Legacy multi-stream output group for the first destination (index 0). -/
def firstTierGroup : List String :=
  ["-map", "0:v", "-map", "0:a", "-c:v", "libx264", "-preset", "ultrafast",
   "-b:v", "800k", "-maxrate", "800k", "-bufsize", "1600k",
   "-c:a", "aac", "-b:a", "96k", "-f", "flv"]

/-- Legacy multi-stream output group for later destinations. -/
def extraTierGroup : List String :=
  ["-map", "0:v", "-map", "0:a", "-c:v", "libx264", "-preset", "ultrafast",
   "-b:v", "600k", "-maxrate", "600k", "-bufsize", "1200k",
   "-s", "960x540", "-c:a", "aac", "-b:a", "64k", "-f", "flv"]

/-- One iteration of the legacy `rtmps.forEach((url, index) => ...)` body:
the tier arguments, then `-rtmp_conn S:allowPublish` when the URL contains
`rtmps://`, then the URL itself. -/
def outputGroup (isMulti : Bool) (index : Nat) (url : String) : List String :=
  (if isMulti then (if index = 0 then firstTierGroup else extraTierGroup)
   else ["-f", "flv"]) ++
  (if jsIncludes url "rtmps://" then ["-rtmp_conn", "S:allowPublish"] else []) ++
  [url]

/-- The legacy output arguments: the concatenation of the per-destination
groups, in destination order. -/
def outputArgs (rtmps : List String) : List String :=
  rtmps.enum.flatMap (fun iu => outputGroup (decide (1 < rtmps.length)) iu.1 iu.2)

end Legacy

lemma teeGroup_injective : Function.Injective teeGroup := by
  intro u v h
  have h2 := congrArg String.data h
  simp only [teeGroup, String.data_append] at h2
  exact String.ext (List.append_cancel_left h2)

lemma inputStringOf_ne_rtmp_conn (v a : String) : inputStringOf v a ≠ "-rtmp_conn" := by
  intro h
  have h2 := congrArg String.length h
  rw [inputStringOf] at h2
  rw [String.length_append, String.length_append, String.length_append] at h2
  have hv : ("video=" : String).length = 6 := rfl
  have ha : (":audio=" : String).length = 7 := rfl
  have ht : ("-rtmp_conn" : String).length = 10 := rfl
  omega

lemma joinBar_cons_length (x : String) (l : List String) :
    x.length ≤ (joinBar (x :: l)).length := by
  cases l with
  | nil => simp [joinBar]
  | cons y rest =>
    rw [joinBar, String.length_append, String.length_append]
    omega

lemma teeOutput_ne_rtmp_conn (rtmps : List String) (h : rtmps ≠ []) :
    teeOutput rtmps ≠ "-rtmp_conn" := by
  cases rtmps with
  | nil => exact absurd rfl h
  | cons u l =>
    intro hEq
    have h2 := congrArg String.length hEq
    have h3 := joinBar_cons_length (teeGroup u) (l.map teeGroup)
    rw [teeOutput, teeGroups, List.map_cons] at h2
    have h4 : (teeGroup u).length = 21 + u.length := by
      rw [teeGroup, String.length_append]
      have : ("[f=flv:onfail=ignore]" : String).length = 21 := rfl
      omega
    have ht : ("-rtmp_conn" : String).length = 10 := rfl
    omega

/-- C1: the argument construction selects the single-destination shape exactly
when the destination list has one URL, and the multi-destination shape when it
has `N > 1` URLs; in the latter case the argument vector ends with the tee
output argument, whose per-destination segment list has exactly `N` segments,
the `i`-th being `[f=flv:onfail=ignore]` prefixed to the `i`-th destination
(destination-list order), pairwise distinct for distinct destinations. -/
theorem buildStreamArgs_mode_selection_and_groups :
    (∀ v a u : String,
      modeOf [u] = OutputMode.single ∧
      buildStreamArgs v a [u] = singleModeArgs (inputStringOf v a) u) ∧
    (∀ (v a : String) (rtmps : List String), 2 ≤ rtmps.length →
      modeOf rtmps = OutputMode.multiOutput ∧
      buildStreamArgs v a rtmps =
        multiHeadArgs ++ [inputStringOf v a] ++ multiEncodeArgs
          ++ [joinBar (teeGroups rtmps)] ∧
      (teeGroups rtmps).length = rtmps.length ∧
      (∀ i : Nat, (teeGroups rtmps)[i]? = (rtmps[i]?).map teeGroup) ∧
      (rtmps.Nodup → (teeGroups rtmps).Nodup)) := by
  constructor
  · intro v a u
    constructor
    · rfl
    · rfl
  · intro v a rtmps h
    have hne : rtmps.length ≠ 1 := by omega
    have hmode : modeOf rtmps = OutputMode.multiOutput := by
      rw [modeOf, if_neg hne]
    refine ⟨hmode, ?_, ?_, ?_, ?_⟩
    · rw [buildStreamArgs, hmode]
      rfl
    · simp [teeGroups]
    · intro i
      simp [teeGroups, List.getElem?_map]
    · intro hnd
      exact hnd.map teeGroup_injective

/-- Witness for C1: the mode selection and group structure at a concrete
one-destination and a concrete two-destination request. -/
theorem buildStreamArgs_mode_selection_and_groups_witness :
    (modeOf ["rtmp://a.example/one"] = OutputMode.single ∧
      buildStreamArgs "Cam" "Mic" ["rtmp://a.example/one"] =
        singleModeArgs (inputStringOf "Cam" "Mic") "rtmp://a.example/one") ∧
    (modeOf ["rtmp://a.example/one", "rtmp://b.example/two"] = OutputMode.multiOutput ∧
      (teeGroups ["rtmp://a.example/one", "rtmp://b.example/two"]).length = 2 ∧
      (teeGroups ["rtmp://a.example/one", "rtmp://b.example/two"]).Nodup) := by
  constructor
  · exact buildStreamArgs_mode_selection_and_groups.1 "Cam" "Mic" "rtmp://a.example/one"
  · have h := buildStreamArgs_mode_selection_and_groups.2 "Cam" "Mic"
      ["rtmp://a.example/one", "rtmp://b.example/two"] (by decide)
    exact ⟨h.1, h.2.2.1, h.2.2.2.2 (by decide)⟩

/-- C9 counterexample: in the current implementation a secure (`rtmps://`)
destination receives no publish-permission connection option at all — the
argument vector for a single `rtmps://` destination does not contain
`-rtmp_conn`, and neither does the tee output argument of a two-destination
`rtmps://` request. -/
theorem rtmps_destinations_get_no_conn_option :
    "-rtmp_conn" ∉ buildStreamArgs "Cam" "Mic" ["rtmps://a.rtmp.youtube.com/live2/KEY"] ∧
    jsIncludes (teeOutput ["rtmps://x/1", "rtmps://x/2"]) "-rtmp_conn" = false ∧
    "-rtmp_conn" ∉ buildStreamArgs "Cam" "Mic" ["rtmps://x/1", "rtmps://x/2"] := by
  refine ⟨by decide, by decide, by decide⟩

lemma rtmp_conn_not_in_tier (m : Bool) (i : Nat) :
    "-rtmp_conn" ∉
      (if m then (if i = 0 then Legacy.firstTierGroup else Legacy.extraTierGroup)
       else ["-f", "flv"]) := by
  by_cases hm : m = true
  · by_cases hi : i = 0
    · rw [if_pos hm, if_pos hi]; decide
    · rw [if_pos hm, if_neg hi]; decide
  · rw [if_neg hm]; decide

/-- C9 amended: the current argument builder appends no publish-permission
connection option for any destination (secure or plain); the per-destination
`-rtmp_conn S:allowPublish` option exists only in the legacy builder, where it
is appended inside the output group of exactly the destinations whose URL
contains `rtmps://`. -/
theorem rtmps_conn_option_only_in_legacy_builder :
    (∀ v a u : String, u ≠ "-rtmp_conn" →
      "-rtmp_conn" ∉ buildStreamArgs v a [u]) ∧
    (∀ (v a : String) (rtmps : List String), 2 ≤ rtmps.length →
      "-rtmp_conn" ∉ buildStreamArgs v a rtmps) ∧
    (∀ (m : Bool) (i : Nat) (u : String), jsIncludes u "rtmps://" = true →
      Legacy.outputGroup m i u =
        (if m then (if i = 0 then Legacy.firstTierGroup else Legacy.extraTierGroup)
         else ["-f", "flv"]) ++ ["-rtmp_conn", "S:allowPublish", u]) ∧
    (∀ (m : Bool) (i : Nat) (u : String), jsIncludes u "rtmps://" = false →
      u ≠ "-rtmp_conn" → "-rtmp_conn" ∉ Legacy.outputGroup m i u) := by
  refine ⟨?_, ?_, ?_, ?_⟩
  · intro v a u hu hmem
    have hEq : buildStreamArgs v a [u] = singleModeArgs (inputStringOf v a) u := rfl
    rw [hEq, singleModeArgs] at hmem
    simp only [List.mem_append, List.mem_singleton] at hmem
    rcases hmem with ((h | h) | h) | h
    · revert h; decide
    · exact inputStringOf_ne_rtmp_conn v a h.symm
    · revert h; decide
    · exact hu h.symm
  · intro v a rtmps h hmem
    have hne : rtmps.length ≠ 1 := by omega
    have hnil : rtmps ≠ [] := by
      intro hn; rw [hn] at h; simp at h
    rw [buildStreamArgs, modeOf, if_neg hne] at hmem
    rw [multiModeArgs] at hmem
    simp only [List.mem_append, List.mem_singleton] at hmem
    rcases hmem with ((h1 | h1) | h1) | h1
    · revert h1; decide
    · exact inputStringOf_ne_rtmp_conn v a h1.symm
    · revert h1; decide
    · exact teeOutput_ne_rtmp_conn rtmps hnil h1.symm
  · intro m i u hu
    rw [Legacy.outputGroup, hu]
    rw [if_pos rfl, List.append_assoc]
    rfl
  · intro m i u hu hne hmem
    rw [Legacy.outputGroup, hu] at hmem
    simp only [List.mem_append, List.mem_singleton] at hmem
    rcases hmem with (h1 | h1) | h1
    · exact rtmp_conn_not_in_tier m i h1
    · simp at h1
    · exact hne h1.symm

/-- Witness for C9's amended theorem: concrete secure and plain URLs in both
builders. -/
theorem rtmps_conn_option_only_in_legacy_builder_witness :
    "-rtmp_conn" ∉ buildStreamArgs "Cam" "Mic" ["rtmp://plain.example/live"] ∧
    "-rtmp_conn" ∉ buildStreamArgs "Cam" "Mic" ["rtmps://s.example/a", "rtmp://p.example/b"] ∧
    Legacy.outputGroup true 0 "rtmps://s.example/a" =
      Legacy.firstTierGroup ++ ["-rtmp_conn", "S:allowPublish", "rtmps://s.example/a"] ∧
    "-rtmp_conn" ∉ Legacy.outputGroup true 1 "rtmp://p.example/b" := by
  refine ⟨?_, ?_, ?_, ?_⟩
  · exact rtmps_conn_option_only_in_legacy_builder.1 "Cam" "Mic"
      "rtmp://plain.example/live" (by decide)
  · exact rtmps_conn_option_only_in_legacy_builder.2.1 "Cam" "Mic"
      ["rtmps://s.example/a", "rtmp://p.example/b"] (by decide)
  · have h := rtmps_conn_option_only_in_legacy_builder.2.2.1 true 0
      "rtmps://s.example/a" (by decide)
    simpa using h
  · exact rtmps_conn_option_only_in_legacy_builder.2.2.2 true 1
      "rtmp://p.example/b" (by decide) (by decide)

/-! ## Process supervisor

The module-level state of `ffmpegController.js` (`currentProc`, plus the
observable side effects: spawned processes, kill signals, exit-handler
invocations) and the atomic steps of `startStream` / `stopStream` / the exit
handler / the 2000 ms liveness timer. -/

/-- A spawned child-process handle as the supervisor sees it; `killed` is
Node's flag, set once `kill()` has been called on the handle. -/
structure ProcHandle where
  pid : Nat
  killed : Bool
deriving DecidableEq, Repr

/-- One invocation of the registered exit handlers: exit code (`none` for a
signal-only exit), signal, and the classified message sent on abnormal
exits. -/
structure ExitEvent where
  code : Option Int
  signal : Option String
  message : Option String
deriving DecidableEq, Repr

/-- The supervisor state together with the externally visible side effects of
a run. -/
structure SupState where
  currentProc : Option ProcHandle
  spawned : List Nat
  alive : List Nat
  killSignals : List (Nat × String)
  exitEvents : List ExitEvent
deriving DecidableEq, Repr

/-- The initial state: no process owned, no side effect yet. -/
def initSup : SupState :=
  { currentProc := none, spawned := [], alive := [], killSignals := [], exitEvents := [] }

/-- `isStreaming()` : `!!currentProc`. -/
def isStreaming (s : SupState) : Bool := s.currentProc.isSome

/-- The failures a `startStream` attempt can produce. -/
inductive StartErr
  | alreadyRunning
  | invalidRequest
  | missingBinary
  | startupFailed
deriving DecidableEq, Repr

/-- The synchronous prefix of `startStream`: the single-flight guard
(`if (currentProc) throw "Stream already running"`) followed by request
validation (`if (!video || !audio || !rtmps.length) throw ...`); an empty
string is falsy. -/
def startSyncCheck (s : SupState) (video audio : String) (rtmps : List String) :
    Option StartErr :=
  if s.currentProc.isSome then some .alreadyRunning
  else if video = "" ∨ audio = "" ∨ rtmps = [] then some .invalidRequest
  else none

/-- The spawn step of `startStream`, reached only after the awaited FFmpeg
probe resolves: `const p = spawn(...); currentProc = p`. -/
def spawnStep (s : SupState) (pid : Nat) : SupState :=
  { s with currentProc := some { pid := pid, killed := false },
           spawned := s.spawned ++ [pid],
           alive := s.alive ++ [pid] }

/-- The `exit` handler of the spawned process: always clears `currentProc`;
when the exit code is non-zero and non-null it classifies the accumulated
stderr and notifies the exit handlers with the message, otherwise it
notifies them without one. -/
def exitStep (s : SupState) (pid : Nat) (code : Option Int) (signal : Option String)
    (errorOutput : String) : SupState :=
  let s1 := { s with currentProc := none, alive := s.alive.filter (· ≠ pid) }
  match code with
  | some c =>
    if c ≠ 0 then
      { s1 with exitEvents :=
          s1.exitEvents ++ [{ code := some c, signal := signal,
                              message := some (classifyError errorOutput) }] }
    else
      { s1 with exitEvents :=
          s1.exitEvents ++ [{ code := some c, signal := signal, message := none }] }
  | none =>
    { s1 with exitEvents :=
        s1.exitEvents ++ [{ code := none, signal := signal, message := none }] }

/-- The liveness-timer callback, 2000 ms after the spawn:
`if (currentProc && !currentProc.killed) resolve else reject`; `none` means
the start promise resolves (Streaming), `some .startupFailed` that it
rejects. -/
def timerStep (s : SupState) : Option StartErr :=
  match s.currentProc with
  | some p => if p.killed then some .startupFailed else none
  | none => some .startupFailed

/-- The liveness window of `startStream`, in milliseconds. -/
def livenessWindowMs : Nat := 2000

/-- `stopStream()`: a no-op when no process is owned; otherwise clears
`currentProc` immediately and sends `SIGTERM` to the detached handle. (The
later SIGKILL escalation acts on the detached handle only and is not needed
by any claim.) -/
def stopStream (s : SupState) : SupState :=
  match s.currentProc with
  | none => s
  | some p =>
    { s with currentProc := none, killSignals := s.killSignals ++ [(p.pid, "SIGTERM")] }

/-- One complete `startStream` attempt run in isolation: synchronous checks,
the awaited probe result `ffAvail`, the spawn, then — when the process exits
`t` ms after the spawn with `t` inside the liveness window — the exit handler
followed by the timer, otherwise the timer on the live process. Returns the
final state and the outcome (`none` = the start promise resolved). -/
def runStartAttempt (s : SupState) (ffAvail : Bool) (video audio : String)
    (rtmps : List String) (pid : Nat) (exitTime : Option Nat) (code : Option Int)
    (signal : Option String) (errorOutput : String) : SupState × Option StartErr :=
  match startSyncCheck s video audio rtmps with
  | some e => (s, some e)
  | none =>
    if ffAvail then
      let s1 := spawnStep s pid
      match exitTime with
      | some t =>
        if t < livenessWindowMs then
          let s2 := exitStep s1 pid code signal errorOutput
          (s2, timerStep s2)
        else (s1, timerStep s1)
      | none => (s1, timerStep s1)
    else (s, some .missingBinary)

lemma exitStep_currentProc (s : SupState) (pid : Nat) (code : Option Int)
    (signal : Option String) (txt : String) :
    (exitStep s pid code signal txt).currentProc = none := by
  rcases code with _ | c
  · rfl
  · by_cases hc : c ≠ 0 <;> simp [exitStep, hc]

lemma timerStep_of_none (s : SupState) (h : s.currentProc = none) :
    timerStep s = some StartErr.startupFailed := by
  simp [timerStep, h]

lemma startSyncCheck_valid (s : SupState) (video audio : String) (rtmps : List String)
    (hc : s.currentProc = none) (hv : video ≠ "") (ha : audio ≠ "") (hr : rtmps ≠ []) :
    startSyncCheck s video audio rtmps = none := by
  simp [startSyncCheck, hc, hv, ha, hr]

/-- C3: in a start attempt from the idle state on a valid request, if the
spawned process exits inside the 2000 ms liveness window the attempt rejects
with `StartupFailed` and the state is back to idle — the start promise never
resolves, so Streaming is never observed; if the process survives the window
the attempt resolves and the state is Streaming. -/
theorem liveness_window_decides_startup :
    ∀ (video audio : String) (rtmps : List String) (pid t : Nat)
      (code : Option Int) (signal : Option String) (errTxt : String),
      video ≠ "" → audio ≠ "" → rtmps ≠ [] →
      (t < livenessWindowMs →
        (runStartAttempt initSup true video audio rtmps pid (some t) code signal errTxt).2
            = some StartErr.startupFailed ∧
        isStreaming
          (runStartAttempt initSup true video audio rtmps pid (some t) code signal
            errTxt).1 = false) ∧
      (livenessWindowMs ≤ t →
        (runStartAttempt initSup true video audio rtmps pid (some t) code signal errTxt).2
            = none ∧
        isStreaming
          (runStartAttempt initSup true video audio rtmps pid (some t) code signal
            errTxt).1 = true) ∧
      ((runStartAttempt initSup true video audio rtmps pid none code signal errTxt).2
          = none ∧
        isStreaming
          (runStartAttempt initSup true video audio rtmps pid none code signal
            errTxt).1 = true) := by
  intro video audio rtmps pid t code signal errTxt hv ha hr
  have hchk := startSyncCheck_valid initSup video audio rtmps rfl hv ha hr
  refine ⟨?_, ?_, ?_⟩
  · intro ht
    have hred :
        runStartAttempt initSup true video audio rtmps pid (some t) code signal errTxt
          = (exitStep (spawnStep initSup pid) pid code signal errTxt,
             timerStep (exitStep (spawnStep initSup pid) pid code signal errTxt)) := by
      simp [runStartAttempt, hchk, ht]
    rw [hred]
    have hcp := exitStep_currentProc (spawnStep initSup pid) pid code signal errTxt
    exact ⟨timerStep_of_none _ hcp, by simp [isStreaming, hcp]⟩
  · intro ht
    have hlt : ¬ t < livenessWindowMs := by omega
    have hred :
        runStartAttempt initSup true video audio rtmps pid (some t) code signal errTxt
          = (spawnStep initSup pid, timerStep (spawnStep initSup pid)) := by
      simp [runStartAttempt, hchk, hlt]
    rw [hred]
    exact ⟨rfl, rfl⟩
  · have hred :
        runStartAttempt initSup true video audio rtmps pid none code signal errTxt
          = (spawnStep initSup pid, timerStep (spawnStep initSup pid)) := by
      simp [runStartAttempt, hchk]
    rw [hred]
    exact ⟨rfl, rfl⟩

/-- Witness for C3: a process dying 500 ms after spawn rejects with
`StartupFailed` and leaves the supervisor idle; a surviving process
resolves into Streaming. -/
theorem liveness_window_decides_startup_witness :
    ((runStartAttempt initSup true "Cam" "Mic" ["rtmp://a.example/one"] 0 (some 500)
        (some 1) none "Connection refused").2 = some StartErr.startupFailed ∧
      isStreaming (runStartAttempt initSup true "Cam" "Mic" ["rtmp://a.example/one"] 0
        (some 500) (some 1) none "Connection refused").1 = false) ∧
    ((runStartAttempt initSup true "Cam" "Mic" ["rtmp://a.example/one"] 0 none
        (some 1) none "").2 = none ∧
      isStreaming (runStartAttempt initSup true "Cam" "Mic" ["rtmp://a.example/one"] 0
        none (some 1) none "").1 = true) := by
  have h := liveness_window_decides_startup "Cam" "Mic" ["rtmp://a.example/one"] 0 500
    (some 1) none "Connection refused" (by decide) (by decide) (by decide)
  have h2 := liveness_window_decides_startup "Cam" "Mic" ["rtmp://a.example/one"] 0 500
    (some 1) none "" (by decide) (by decide) (by decide)
  exact ⟨h.1 (by decide), h2.2.2⟩

/-- C4: `stopStream` with no owned process is a complete no-op (state is
returned unchanged, so no event is emitted and nothing is killed); with an
owned process it clears ownership immediately — `isStreaming` is false as
soon as the call returns — while the OS process is still winding down (the
alive set is untouched) and no exit event is emitted by the call itself. -/
theorem stopStream_noop_and_immediate_release :
    (∀ s : SupState, s.currentProc = none → stopStream s = s) ∧
    (∀ (s : SupState) (p : ProcHandle), s.currentProc = some p →
      isStreaming (stopStream s) = false ∧
      (stopStream s).alive = s.alive ∧
      (stopStream s).spawned = s.spawned ∧
      (stopStream s).exitEvents = s.exitEvents ∧
      (stopStream s).killSignals = s.killSignals ++ [(p.pid, "SIGTERM")]) := by
  constructor
  · intro s h
    simp [stopStream, h]
  · intro s p h
    simp [stopStream, h, isStreaming]

/-- Witness for C4: a concrete idle state and a concrete streaming state. -/
theorem stopStream_noop_and_immediate_release_witness :
    stopStream initSup = initSup ∧
    isStreaming (stopStream (spawnStep initSup 7)) = false ∧
    (stopStream (spawnStep initSup 7)).alive = (spawnStep initSup 7).alive := by
  refine ⟨stopStream_noop_and_immediate_release.1 initSup rfl, ?_, ?_⟩
  · exact (stopStream_noop_and_immediate_release.2 (spawnStep initSup 7)
      { pid := 7, killed := false } rfl).1
  · exact (stopStream_noop_and_immediate_release.2 (spawnStep initSup 7)
      { pid := 7, killed := false } rfl).2.1

/-- C8: from an idle supervisor, a request with an empty device name or an
empty destination list fails synchronously with the invalid-request error
and the whole attempt leaves the state untouched — in particular no process
is spawned. -/
theorem invalid_request_fails_before_spawn :
    ∀ (s : SupState) (ffAvail : Bool) (video audio : String) (rtmps : List String)
      (pid : Nat) (exitTime : Option Nat) (code : Option Int) (signal : Option String)
      (txt : String),
      s.currentProc = none →
      (video = "" ∨ audio = "" ∨ rtmps = []) →
      startSyncCheck s video audio rtmps = some StartErr.invalidRequest ∧
      runStartAttempt s ffAvail video audio rtmps pid exitTime code signal txt
        = (s, some StartErr.invalidRequest) := by
  intro s ffAvail video audio rtmps pid exitTime code signal txt hc hinv
  have hchk : startSyncCheck s video audio rtmps = some StartErr.invalidRequest := by
    simp [startSyncCheck, hc, hinv]
  exact ⟨hchk, by simp [runStartAttempt, hchk]⟩

/-- Witness for C8: an empty video device and an empty destination list each
fail with the invalid-request error without touching the state. -/
theorem invalid_request_fails_before_spawn_witness :
    runStartAttempt initSup true "" "Mic" ["rtmp://a.example/one"] 0 none none none ""
        = (initSup, some StartErr.invalidRequest) ∧
    runStartAttempt initSup true "Cam" "Mic" [] 0 none none none ""
        = (initSup, some StartErr.invalidRequest) := by
  constructor
  · exact (invalid_request_fails_before_spawn initSup true "" "Mic"
      ["rtmp://a.example/one"] 0 none none none "" rfl (Or.inl rfl)).2
  · exact (invalid_request_fails_before_spawn initSup true "Cam" "Mic" [] 0 none none
      none "" rfl (Or.inr (Or.inr rfl))).2

/-! ## Interleaved start calls (claim C2)

`startStream` sets `currentProc` only in its asynchronous continuation (after
the awaited FFmpeg probe), while the `AlreadyRunning` guard is synchronous.
Two interleaved calls are modelled as two little programs over the shared
supervisor state: step 0 is the synchronous guard + validation, step 1 the
spawn reached after the probe resolves. -/

/-- The progress of one `startStream` call: stage 0 = before the synchronous
check, 1 = past the check and awaiting the probe, 2 = spawned, 3 = ended with
a synchronous throw. -/
structure CallState where
  stage : Nat
  thrown : Option StartErr
deriving DecidableEq, Repr

/-- Two concurrent `startStream` calls over the shared supervisor state. -/
structure TwoStarts where
  sup : SupState
  call0 : CallState
  call1 : CallState
  nextPid : Nat
deriving DecidableEq, Repr

/-- Both calls poised before their synchronous check, idle supervisor. -/
def initTwoStarts : TwoStarts :=
  { sup := initSup, call0 := { stage := 0, thrown := none },
    call1 := { stage := 0, thrown := none }, nextPid := 0 }

/-- Run one atomic step of call `i` (`false` = first call, `true` = second):
its synchronous check if it has not run yet, else its spawn continuation. -/
def stepCall (video audio : String) (rtmps : List String) (g : TwoStarts) (i : Bool) :
    TwoStarts :=
  let c := if i then g.call1 else g.call0
  match c.stage with
  | 0 =>
    match startSyncCheck g.sup video audio rtmps with
    | some e =>
      let c2 : CallState := { stage := 3, thrown := some e }
      if i then { g with call1 := c2 } else { g with call0 := c2 }
    | none =>
      let c2 : CallState := { stage := 1, thrown := none }
      if i then { g with call1 := c2 } else { g with call0 := c2 }
  | 1 =>
    let c2 : CallState := { stage := 2, thrown := none }
    let g2 := { g with sup := spawnStep g.sup g.nextPid, nextPid := g.nextPid + 1 }
    if i then { g2 with call1 := c2 } else { g2 with call0 := c2 }
  | _ => g

/-- Run a schedule (a list of call choices) from a state. -/
def runSchedule (video audio : String) (rtmps : List String) :
    List Bool → TwoStarts → TwoStarts
  | [], g => g
  | i :: rest, g => runSchedule video audio rtmps rest (stepCall video audio rtmps g i)

/-- C2 (failing interleaving): under the schedule in which both calls pass
their synchronous guard before either spawn runs — exactly what happens when
the second call arrives while the first is awaiting the FFmpeg probe — both
calls spawn a process: two processes are spawned and alive, neither call
throws `AlreadyRunning`, and the slot ends up holding only the second one. -/
theorem interleaved_starts_spawn_two_processes :
    (runSchedule "Cam" "Mic" ["rtmp://a.example/one"] [false, true, false, true]
        initTwoStarts).sup.spawned = [0, 1] ∧
    (runSchedule "Cam" "Mic" ["rtmp://a.example/one"] [false, true, false, true]
        initTwoStarts).sup.alive = [0, 1] ∧
    (runSchedule "Cam" "Mic" ["rtmp://a.example/one"] [false, true, false, true]
        initTwoStarts).call0.thrown = none ∧
    (runSchedule "Cam" "Mic" ["rtmp://a.example/one"] [false, true, false, true]
        initTwoStarts).call1.thrown = none ∧
    (runSchedule "Cam" "Mic" ["rtmp://a.example/one"] [false, true, false, true]
        initTwoStarts).sup.currentProc = some { pid := 1, killed := false } := by
  refine ⟨rfl, rfl, rfl, rfl, rfl⟩

/-- C2 (the guard itself): once a process is owned — `currentProc` set — a
start call at its synchronous check fails fast with `AlreadyRunning` and
changes nothing: the supervisor state is untouched, so the first session is
unaffected and nothing is spawned. -/
theorem start_while_owned_fails_without_side_effects :
    ∀ (g : TwoStarts) (video audio : String) (rtmps : List String) (i : Bool),
      (if i then g.call1 else g.call0).stage = 0 →
      g.sup.currentProc.isSome = true →
      (stepCall video audio rtmps g i).sup = g.sup ∧
      (stepCall video audio rtmps g i).nextPid = g.nextPid ∧
      ((if i then (stepCall video audio rtmps g i).call1
        else (stepCall video audio rtmps g i).call0).thrown
          = some StartErr.alreadyRunning) := by
  intro g video audio rtmps i hstage hown
  have hchk : startSyncCheck g.sup video audio rtmps = some StartErr.alreadyRunning := by
    simp [startSyncCheck, hown]
  rcases i with _ | _ <;>
    simp_all [stepCall, hchk]

/-- Witness for the C2 guard theorem: after a sequential first start has
spawned, the second call's check throws `AlreadyRunning` and leaves
everything unchanged. -/
theorem start_while_owned_fails_without_side_effects_witness :
    ((stepCall "Cam" "Mic" ["rtmp://a.example/one"]
        (runSchedule "Cam" "Mic" ["rtmp://a.example/one"] [false, false] initTwoStarts)
        true).sup
      = (runSchedule "Cam" "Mic" ["rtmp://a.example/one"] [false, false]
          initTwoStarts).sup) ∧
    ((stepCall "Cam" "Mic" ["rtmp://a.example/one"]
        (runSchedule "Cam" "Mic" ["rtmp://a.example/one"] [false, false] initTwoStarts)
        true).call1.thrown = some StartErr.alreadyRunning) := by
  have h := start_while_owned_fails_without_side_effects
    (runSchedule "Cam" "Mic" ["rtmp://a.example/one"] [false, false] initTwoStarts)
    "Cam" "Mic" ["rtmp://a.example/one"] true rfl rfl
  exact ⟨h.1, h.2.2⟩

/-! ## Output parsing: display stream (`hookLogs`)

The stderr branch of `hookLogs` splits each chunk on `/\r?\n/`, trims each
line, skips blank lines, and then per line either forwards the line verbatim,
rewrites it into the single buffer warning, or drops it. -/

/-- Whitespace as trimmed by JavaScript (the ASCII part). -/
def isJsSpace (c : Char) : Bool :=
  c = ' ' || c = '\t' || c = '\n' || c = '\r' || c = '\x0b' || c = '\x0c'

/-- JavaScript `s.trim()`. -/
def jsTrim (s : String) : String :=
  ⟨((s.data.dropWhile isJsSpace).reverse.dropWhile isJsSpace).reverse⟩

/-- Splitting on `/\r?\n/`: `\r\n` or a bare `\n` separates; a bare `\r`
does not. -/
def splitLinesAux : List Char → List Char → List (List Char)
  | acc, [] => [acc.reverse]
  | acc, '\r' :: '\n' :: rest => acc.reverse :: splitLinesAux [] rest
  | acc, '\n' :: rest => acc.reverse :: splitLinesAux [] rest
  | acc, c :: rest => splitLinesAux (c :: acc) rest

/-- JavaScript `s.split(/\r?\n/)`. -/
def splitLines (s : String) : List String := (splitLinesAux [] s.data).map String.mk

/-- What the display callback receives for one (trimmed, non-blank) line. -/
inductive DisplayOut
  | passLine (line : String)
  | bufferWarning
  | suppressed
deriving DecidableEq, Repr

/-- The reworded human-readable buffer warning sent in place of raw
buffer-overflow diagnostics. -/
def bufferWarningText : String :=
  "⚠️ Camera buffer warning - consider reducing quality if persistent"

/-- The per-line display decision of the `hookLogs` stderr branch: forward
the line unless it contains `Last message repeated`, or contains both
`real-time buffer` and `frame dropped`; in that case send the single buffer
warning when the line mentions `real-time buffer` but not `repeated`, and
drop it otherwise. -/
def feedDisplay (line : String) : DisplayOut :=
  if !(jsIncludes line "Last message repeated")
      && !(jsIncludes line "real-time buffer" && jsIncludes line "frame dropped") then
    .passLine line
  else if jsIncludes line "real-time buffer" && !(jsIncludes line "repeated") then
    .bufferWarning
  else
    .suppressed

/-- Display decisions for a list of raw lines: trim, skip blanks, decide. -/
def displayOutputsOfLines (ls : List String) : List DisplayOut :=
  ls.filterMap (fun l =>
    let t := jsTrim l
    if t = "" then none else some (feedDisplay t))

/-- Display decisions for one raw stderr data chunk. -/
def displayOutputsOfChunk (chunk : String) : List DisplayOut :=
  displayOutputsOfLines (splitLines chunk)

/-- How many buffer warnings a list of display decisions contains. -/
def countWarnings (outs : List DisplayOut) : Nat :=
  (outs.filter (· = DisplayOut.bufferWarning)).length

/-- A representative raw buffer-overflow diagnostic line. -/
def bufferDiagLine : String := "real-time buffer 101% too full! frame dropped!"

/-- C5 counterexample: the display filter is stateless, so a run of 5
identical raw buffer-overflow diagnostic lines surfaces 5 buffer warnings,
not 1 — each repeat of the raw diagnostic produces another warning. -/
theorem five_identical_buffer_lines_give_five_warnings :
    feedDisplay bufferDiagLine = DisplayOut.bufferWarning ∧
    countWarnings (displayOutputsOfLines (List.replicate 5 bufferDiagLine)) = 5 := by
  refine ⟨by decide, by decide⟩

lemma feedDisplay_repeat_marker (r : String)
    (h1 : jsIncludes r "Last message repeated" = true)
    (h2 : jsIncludes r "real-time buffer" = false) :
    feedDisplay r = DisplayOut.suppressed := by
  simp [feedDisplay, h1, h2]

lemma displayOutputs_repeat_markers (reps : List String)
    (h : ∀ r ∈ reps, jsTrim r = r ∧ r ≠ "" ∧
      jsIncludes r "Last message repeated" = true ∧
      jsIncludes r "real-time buffer" = false) :
    displayOutputsOfLines reps = List.replicate reps.length DisplayOut.suppressed := by
  induction reps with
  | nil => rfl
  | cons r rest ih =>
    obtain ⟨ht, hne, h1, h2⟩ := h r (List.mem_cons_self r rest)
    have hrest := ih (fun x hx => h x (List.mem_cons_of_mem r hx))
    simp only [displayOutputsOfLines, List.filterMap_cons] at hrest ⊢
    rw [ht, if_neg hne, feedDisplay_repeat_marker r h1 h2, hrest]
    rfl

/-- C5 amended: in the encoder's actual repeat encoding — a first
buffer-overflow diagnostic line followed by `Last message repeated ...`
marker lines — exactly one display warning is surfaced for the run and every
marker line is suppressed entirely; but repeats that arrive as further
identical raw diagnostic lines are not deduplicated (each yields its own
warning, as the counterexample shows). -/
theorem buffer_run_with_repeat_markers_one_warning :
    ∀ (d : String) (reps : List String),
      jsTrim d = d → d ≠ "" →
      jsIncludes d "real-time buffer" = true →
      jsIncludes d "frame dropped" = true →
      jsIncludes d "repeated" = false →
      (∀ r ∈ reps, jsTrim r = r ∧ r ≠ "" ∧
        jsIncludes r "Last message repeated" = true ∧
        jsIncludes r "real-time buffer" = false) →
      displayOutputsOfLines (d :: reps)
          = DisplayOut.bufferWarning :: List.replicate reps.length DisplayOut.suppressed ∧
      countWarnings (displayOutputsOfLines (d :: reps)) = 1 := by
  intro d reps htrim hne hbuf hdrop hrep hreps
  have hd : feedDisplay d = DisplayOut.bufferWarning := by
    simp [feedDisplay, hbuf, hdrop, hrep]
  have hrest := displayOutputs_repeat_markers reps hreps
  constructor
  · simp only [displayOutputsOfLines, List.filterMap_cons] at hrest ⊢
    rw [htrim, if_neg hne, hd, hrest]
  · simp only [displayOutputsOfLines, List.filterMap_cons] at hrest ⊢
    rw [htrim, if_neg hne, hd, hrest]
    simp [countWarnings, List.filter_replicate]

/-- Witness for the amended C5 theorem: one raw diagnostic followed by four
repeat markers yields exactly one warning. -/
theorem buffer_run_with_repeat_markers_one_warning_witness :
    countWarnings (displayOutputsOfLines
      (bufferDiagLine :: List.replicate 4 "Last message repeated 4 times")) = 1 := by
  exact (buffer_run_with_repeat_markers_one_warning bufferDiagLine
    (List.replicate 4 "Last message repeated 4 times")
    (by decide) (by decide) (by decide) (by decide) (by decide)
    (by decide)).2

/-! ## Output parsing: progress statistics (`parseFFmpegStats`)

Each regular expression of `parseFFmpegStats` is embedded as a scanner that
tries the pattern anchored at every position left to right (the first-match
semantics of `String.prototype.match` without the global flag); the captured
digit strings go through exact `parseInt`/`parseFloat` semantics (decimal
values become rationals). -/

/-- Value of a captured digit string (`parseInt` on `\d+`). -/
def digitsVal (l : List Char) : Nat :=
  l.foldl (fun n c => n * 10 + (c.toNat - ('0').toNat)) 0

/-- `litPrefix pat l` : when `pat` starts `l`, the remainder after it. -/
def litPrefix : List Char → List Char → Option (List Char)
  | [], l => some l
  | _ :: _, [] => none
  | a :: as, b :: bs => if a = b then litPrefix as bs else none

/-- Try `f` anchored at each position of the text, left to right. -/
def scanFor {α : Type} (f : List Char → Option α) : List Char → Option α
  | [] => f []
  | a :: t =>
    match f (a :: t) with
    | some r => some r
    | none => scanFor f t

/-- Capture `(\d+)`: the greedy digit prefix (at least one digit) and the
remainder. -/
def natCapture (r : List Char) : Option (Nat × List Char) :=
  let ds := r.takeWhile Char.isDigit
  if ds.isEmpty then none else some (digitsVal ds, r.dropWhile Char.isDigit)

/-- Capture `(\d+(?:\.\d+)?)` with `parseFloat` value: the greedy digit
prefix, optionally followed by a dot and a greedy nonempty digit run. -/
def decCapture (r : List Char) : Option (ℚ × List Char) :=
  let ds := r.takeWhile Char.isDigit
  if ds.isEmpty then none
  else
    let r1 := r.dropWhile Char.isDigit
    match r1 with
    | '.' :: r2 =>
      let fs := r2.takeWhile Char.isDigit
      if fs.isEmpty then some (mkRat (Int.ofNat (digitsVal ds)) 1, r1)
      else
        some (mkRat (Int.ofNat (digitsVal ds * 10 ^ fs.length + digitsVal fs))
                (10 ^ fs.length),
              r2.dropWhile Char.isDigit)
    | _ => some (mkRat (Int.ofNat (digitsVal ds)) 1, r1)

/-- Anchored pattern `lit + \s* + (\d+) + suffix`. -/
def tryNatAfter (lit suffix : String) (l : List Char) : Option Nat :=
  match litPrefix lit.data l with
  | none => none
  | some r =>
    match natCapture (r.dropWhile isJsSpace) with
    | none => none
    | some (n, rest) =>
      match litPrefix suffix.data rest with
      | none => none
      | some _ => some n

/-- Anchored pattern `lit + \s* + (\d+(?:\.\d+)?) + suffix`. -/
def tryNumAfter (lit suffix : String) (l : List Char) : Option ℚ :=
  match litPrefix lit.data l with
  | none => none
  | some r =>
    match decCapture (r.dropWhile isJsSpace) with
    | none => none
    | some (q, rest) =>
      match litPrefix suffix.data rest with
      | none => none
      | some _ => some q

/-- Anchored pattern `time=(\d{2}):(\d{2}):(\d{2})\.(\d{2})`; the captured
centiseconds are discarded by the caller, so only (hours, minutes, seconds)
are returned. -/
def tryTime (l : List Char) : Option (Nat × Nat × Nat) :=
  match litPrefix ("time=").data l with
  | none => none
  | some r =>
    match r with
    | h1 :: h2 :: c1 :: m1 :: m2 :: c2 :: s1 :: s2 :: d :: f1 :: f2 :: _ =>
      if h1.isDigit && h2.isDigit && c1 = ':' && m1.isDigit && m2.isDigit && c2 = ':'
          && s1.isDigit && s2.isDigit && d = '.' && f1.isDigit && f2.isDigit then
        some (digitsVal [h1, h2], digitsVal [m1, m2], digitsVal [s1, s2])
      else none
    | _ => none

/-- `line.match(/frame=\s*(\d+)/)`, first capture as `parseInt`. -/
def frameMatch (line : String) : Option Nat := scanFor (tryNatAfter "frame=" "") line.data

/-- `line.match(/fps=\s*(\d+(?:\.\d+)?)/)`, first capture as `parseFloat`. -/
def fpsMatch (line : String) : Option ℚ := scanFor (tryNumAfter "fps=" "") line.data

/-- `line.match(/bitrate=\s*(\d+(?:\.\d+)?)kbits\/s/)`. -/
def bitrateMatch (line : String) : Option ℚ :=
  scanFor (tryNumAfter "bitrate=" "kbits/s") line.data

/-- `line.match(/time=(\d{2}):(\d{2}):(\d{2})\.(\d{2})/)`. -/
def timeMatch (line : String) : Option (Nat × Nat × Nat) := scanFor tryTime line.data

/-- `line.match(/size=\s*(\d+)kB/)`. -/
def sizeMatch (line : String) : Option Nat := scanFor (tryNatAfter "size=" "kB") line.data

/-- `line.match(/speed=\s*(\d+(?:\.\d+)?)x/)`. -/
def speedMatch (line : String) : Option ℚ := scanFor (tryNumAfter "speed=" "x") line.data

/-- The stats object built by `parseFFmpegStats`: every field is optional. -/
structure FFmpegStats where
  frame : Option Nat
  fps : Option ℚ
  bitrate : Option ℚ
  size : Option Nat
  speed : Option ℚ
  duration : Option Nat
deriving DecidableEq, Repr

/-- `parseFFmpegStats(line)`: `null` unless at least one of fps, bitrate or
time matched; otherwise the partial stats record, with
`duration = hours*3600 + minutes*60 + seconds`. -/
def parseFFmpegStats (line : String) : Option FFmpegStats :=
  if fpsMatch line = none ∧ bitrateMatch line = none ∧ timeMatch line = none then none
  else
    some { frame := frameMatch line
           fps := fpsMatch line
           bitrate := bitrateMatch line
           size := sizeMatch line
           speed := speedMatch line
           duration := (timeMatch line).map (fun t => t.1 * 3600 + t.2.1 * 60 + t.2.2) }

/-- The progress line named by the claim. -/
def progressSampleLine : String :=
  "frame=1234 fps=30 q=28.0 size=1024kB time=00:00:41.23 bitrate=203.4kbits/s speed=1.0x"

/-- C6: the named progress line parses to frame 1234, fps 30,
bitrate 203.4 kbps (`mkRat 2034 10`), size 1024 kB, speed factor 1.0 and
41 elapsed seconds; a line containing only `frame=10` yields no sample; and
in general a sample is produced only if at least one of fps, bitrate or time
was parsed. -/
theorem parseFFmpegStats_sample_and_guard :
    parseFFmpegStats progressSampleLine
        = some { frame := some 1234, fps := some 30, bitrate := some (mkRat 2034 10),
                 size := some 1024, speed := some 1, duration := some 41 } ∧
    parseFFmpegStats "frame=10" = none ∧
    (∀ (line : String) (s : FFmpegStats), parseFFmpegStats line = some s →
      ¬(s.fps = none ∧ s.bitrate = none ∧ s.duration = none)) := by
  refine ⟨by decide, by decide, ?_⟩
  intro line s hs hcon
  rw [parseFFmpegStats] at hs
  by_cases h : fpsMatch line = none ∧ bitrateMatch line = none ∧ timeMatch line = none
  · rw [if_pos h] at hs
    exact Option.noConfusion hs
  · rw [if_neg h] at hs
    have hs2 := Option.some.inj hs
    obtain ⟨h1, h2, h3⟩ := hcon
    rw [← hs2] at h1 h2 h3
    simp only at h1 h2 h3
    cases htm : timeMatch line with
    | none => exact h ⟨h1, h2, htm⟩
    | some t => rw [htm] at h3; exact Option.noConfusion h3

/-- Witness for C6's guard conjunct: applying it to the sample line. -/
theorem parseFFmpegStats_sample_and_guard_witness :
    ¬((some (30 : ℚ) : Option ℚ) = none ∧
      (some (mkRat 2034 10) : Option ℚ) = none ∧
      (some 41 : Option Nat) = none) := by
  have h := parseFFmpegStats_sample_and_guard.2.2 progressSampleLine
    { frame := some 1234, fps := some 30, bitrate := some (mkRat 2034 10),
      size := some 1024, speed := some 1, duration := some 41 }
    (by decide)
  exact h

/-! ## Device listing (`deviceManager.js`)

`parseDevices` scans each trimmed line of the listing text against
`^\[dshow[^\]]*\]\s+"([^"]+)"\s+\((video|audio|none)\)` and collects
video/audio names without duplicates; `listDevices` resolves with mock
devices when the binary probe fails, with the parsed devices otherwise, and
with fixed fallback devices when the parse found no device of either kind.
Every code path resolves (the promise is never rejected), which the
embedding reflects by being a total function into `Devices`. -/

/-- The tag captured by the device-line pattern. -/
inductive DevKind
  | video
  | audio
  | noneTag
deriving DecidableEq, Repr

/-- The device-line pattern, anchored at the start of a trimmed line:
`[dshow`, anything up to the first `]`, one or more spaces, a nonempty
quoted name, one or more spaces, then `(video)`, `(audio)` or `(none)`. -/
def deviceLineMatch (l : List Char) : Option (String × DevKind) :=
  match litPrefix ("[dshow").data l with
  | none => none
  | some r =>
    match r.dropWhile (· ≠ ']') with
    | ']' :: r2 =>
      if (r2.takeWhile isJsSpace).isEmpty then none
      else
        match r2.dropWhile isJsSpace with
        | '\"' :: r3 =>
          let nm := r3.takeWhile (· ≠ '\"')
          if nm.isEmpty then none
          else
            match r3.dropWhile (· ≠ '\"') with
            | '\"' :: r4 =>
              if (r4.takeWhile isJsSpace).isEmpty then none
              else
                match r4.dropWhile isJsSpace with
                | '(' :: r5 =>
                  match litPrefix ("video)").data r5 with
                  | some _ => some (String.mk nm, DevKind.video)
                  | none =>
                    match litPrefix ("audio)").data r5 with
                    | some _ => some (String.mk nm, DevKind.audio)
                    | none =>
                      match litPrefix ("none)").data r5 with
                      | some _ => some (String.mk nm, DevKind.noneTag)
                      | none => none
                | _ => none
            | _ => none
        | _ => none
    | _ => none

/-- The video/audio name lists returned by the device listing. -/
structure Devices where
  video : List String
  audio : List String
deriving DecidableEq, Repr

/-- The accumulation loop of `parseDevices`: a matched video (audio) name is
appended to the video (audio) list unless already present; `none`-tagged and
unmatched lines contribute nothing. -/
def parseLines : List String → List String → List String → Devices
  | [], v, a => { video := v, audio := a }
  | l :: rest, v, a =>
    match deviceLineMatch (jsTrim l).data with
    | some (name, DevKind.video) =>
      parseLines rest (if name ∈ v then v else v ++ [name]) a
    | some (name, DevKind.audio) =>
      parseLines rest v (if name ∈ a then a else a ++ [name])
    | _ => parseLines rest v a

/-- `parseDevices(ffout)`. -/
def parseDevices (ffout : String) : Devices := parseLines (splitLines ffout) [] []

/-- The mock devices resolved when the FFmpeg probe fails. -/
def mockDevices : Devices :=
  { video := ["Integrated Camera", "USB Camera", "Virtual Camera"],
    audio := ["Microphone (Built-in)", "USB Microphone", "Line In"] }

/-- The fallback devices resolved when the parse found no device at all. -/
def fallbackDevices : Devices :=
  { video := ["Default Camera"], audio := ["Default Microphone"] }

/-- `listDevices()`, as a function of the probe outcome and the two output
streams of the listing command (the source concatenates them with a newline
before parsing). -/
def listDevices (ffmpegAvailable : Bool) (out errout : String) : Devices :=
  if ffmpegAvailable then
    let d := parseDevices (out ++ "\n" ++ errout)
    if d.video = [] ∧ d.audio = [] then fallbackDevices else d
  else mockDevices

lemma parseLines_nodup (ls : List String) :
    ∀ v a : List String, v.Nodup → a.Nodup →
      (parseLines ls v a).video.Nodup ∧ (parseLines ls v a).audio.Nodup := by
  induction ls with
  | nil => intro v a hv ha; exact ⟨hv, ha⟩
  | cons l rest ih =>
    intro v a hv ha
    rw [parseLines]
    cases hm : deviceLineMatch (jsTrim l).data with
    | none => exact ih v a hv ha
    | some nk =>
      obtain ⟨name, k⟩ := nk
      cases k with
      | video =>
        refine ih _ a ?_ ha
        by_cases hmem : name ∈ v
        · rw [if_pos hmem]; exact hv
        · rw [if_neg hmem]
          simp [List.nodup_append, hv, hmem]
      | audio =>
        refine ih v _ hv ?_
        by_cases hmem : name ∈ a
        · rw [if_pos hmem]; exact ha
        · rw [if_neg hmem]
          simp [List.nodup_append, ha, hmem]
      | noneTag => exact ih v a hv ha

lemma parseLines_video_source (ls : List String) :
    ∀ (v a : List String) (x : String), x ∈ (parseLines ls v a).video →
      x ∈ v ∨ ∃ l ∈ ls, deviceLineMatch (jsTrim l).data = some (x, DevKind.video) := by
  induction ls with
  | nil => intro v a x h; exact Or.inl h
  | cons l rest ih =>
    intro v a x h
    rw [parseLines] at h
    cases hm : deviceLineMatch (jsTrim l).data with
    | none =>
      rw [hm] at h
      rcases ih v a x h with h2 | ⟨l2, hl2, he⟩
      · exact Or.inl h2
      · exact Or.inr ⟨l2, List.mem_cons_of_mem l hl2, he⟩
    | some nk =>
      obtain ⟨name, k⟩ := nk
      cases k with
      | video =>
        rw [hm] at h
        rcases ih _ a x h with h2 | ⟨l2, hl2, he⟩
        · by_cases hmem : name ∈ v
          · rw [if_pos hmem] at h2; exact Or.inl h2
          · rw [if_neg hmem] at h2
            rcases List.mem_append.mp h2 with h3 | h3
            · exact Or.inl h3
            · have hx : x = name := List.mem_singleton.mp h3
              exact Or.inr ⟨l, List.mem_cons_self l rest, by rw [hx]; exact hm⟩
        · exact Or.inr ⟨l2, List.mem_cons_of_mem l hl2, he⟩
      | audio =>
        rw [hm] at h
        rcases ih v _ x h with h2 | ⟨l2, hl2, he⟩
        · exact Or.inl h2
        · exact Or.inr ⟨l2, List.mem_cons_of_mem l hl2, he⟩
      | noneTag =>
        rw [hm] at h
        rcases ih v a x h with h2 | ⟨l2, hl2, he⟩
        · exact Or.inl h2
        · exact Or.inr ⟨l2, List.mem_cons_of_mem l hl2, he⟩

lemma parseLines_audio_source (ls : List String) :
    ∀ (v a : List String) (x : String), x ∈ (parseLines ls v a).audio →
      x ∈ a ∨ ∃ l ∈ ls, deviceLineMatch (jsTrim l).data = some (x, DevKind.audio) := by
  induction ls with
  | nil => intro v a x h; exact Or.inl h
  | cons l rest ih =>
    intro v a x h
    rw [parseLines] at h
    cases hm : deviceLineMatch (jsTrim l).data with
    | none =>
      rw [hm] at h
      rcases ih v a x h with h2 | ⟨l2, hl2, he⟩
      · exact Or.inl h2
      · exact Or.inr ⟨l2, List.mem_cons_of_mem l hl2, he⟩
    | some nk =>
      obtain ⟨name, k⟩ := nk
      cases k with
      | video =>
        rw [hm] at h
        rcases ih _ a x h with h2 | ⟨l2, hl2, he⟩
        · exact Or.inl h2
        · exact Or.inr ⟨l2, List.mem_cons_of_mem l hl2, he⟩
      | audio =>
        rw [hm] at h
        rcases ih v _ x h with h2 | ⟨l2, hl2, he⟩
        · by_cases hmem : name ∈ a
          · rw [if_pos hmem] at h2; exact Or.inl h2
          · rw [if_neg hmem] at h2
            rcases List.mem_append.mp h2 with h3 | h3
            · exact Or.inl h3
            · have hx : x = name := List.mem_singleton.mp h3
              exact Or.inr ⟨l, List.mem_cons_self l rest, by rw [hx]; exact hm⟩
        · exact Or.inr ⟨l2, List.mem_cons_of_mem l hl2, he⟩
      | noneTag =>
        rw [hm] at h
        rcases ih v a x h with h2 | ⟨l2, hl2, he⟩
        · exact Or.inl h2
        · exact Or.inr ⟨l2, List.mem_cons_of_mem l hl2, he⟩

/-- C10 counterexample: a listing whose text parses to audio devices only is
resolved as-is, with an empty video list — the claim that every outcome
carries non-empty video and audio lists fails. -/
theorem listDevices_audio_only_gives_empty_video :
    listDevices true "" "[dshow @ 0] \"Mic\" (audio)"
        = { video := [], audio := ["Mic"] } := by
  decide

/-- C10 amended: `listDevices` always resolves; when the binary probe fails
it resolves with the fixed (non-empty, duplicate-free) mock lists, and when
the parse finds no device of either kind it resolves with the fixed
non-empty fallback lists; otherwise it resolves with the parsed lists, which
are duplicate-free and contain only names whose line was tagged `(video)`
(resp. `(audio)`) — `none`-tagged lines contribute to neither — but one of
the two parsed lists may be empty. -/
theorem listDevices_amended :
    (∀ out errout : String, listDevices false out errout = mockDevices) ∧
    (mockDevices.video ≠ [] ∧ mockDevices.audio ≠ [] ∧
      fallbackDevices.video ≠ [] ∧ fallbackDevices.audio ≠ [] ∧
      mockDevices.video.Nodup ∧ mockDevices.audio.Nodup) ∧
    (∀ out errout : String, parseDevices (out ++ "\n" ++ errout) = { video := [], audio := [] } →
      listDevices true out errout = fallbackDevices) ∧
    (∀ b : Bool, ∀ out errout : String,
      (listDevices b out errout).video.Nodup ∧ (listDevices b out errout).audio.Nodup) ∧
    (∀ (txt : String) (x : String), x ∈ (parseDevices txt).video →
      ∃ l ∈ splitLines txt, deviceLineMatch (jsTrim l).data = some (x, DevKind.video)) ∧
    (∀ (txt : String) (x : String), x ∈ (parseDevices txt).audio →
      ∃ l ∈ splitLines txt, deviceLineMatch (jsTrim l).data = some (x, DevKind.audio)) := by
  refine ⟨?_, ⟨?_, ?_, ?_, ?_, ?_, ?_⟩, ?_, ?_, ?_, ?_⟩
  · intro out errout; rfl
  · decide
  · decide
  · decide
  · decide
  · decide
  · decide
  · intro out errout h
    rw [listDevices, if_pos rfl, h]
    rfl
  · intro b out errout
    cases b with
    | false =>
      have hEq : listDevices false out errout = mockDevices := rfl
      rw [hEq]
      exact ⟨by decide, by decide⟩
    | true =>
      rw [listDevices, if_pos rfl]
      by_cases h : (parseDevices (out ++ "\n" ++ errout)).video = []
          ∧ (parseDevices (out ++ "\n" ++ errout)).audio = []
      · rw [if_pos h]; exact ⟨by decide, by decide⟩
      · rw [if_neg h]
        exact parseLines_nodup (splitLines (out ++ "\n" ++ errout)) [] []
          List.nodup_nil List.nodup_nil
  · intro txt x h
    rcases parseLines_video_source (splitLines txt) [] [] x h with h2 | h2
    · exact absurd h2 (List.not_mem_nil x)
    · exact h2
  · intro txt x h
    rcases parseLines_audio_source (splitLines txt) [] [] x h with h2 | h2
    · exact absurd h2 (List.not_mem_nil x)
    · exact h2

/-- Witness for C10's amended theorem: the empty-parse fallback and the
source-tagging facts at a concrete listing. -/
theorem listDevices_amended_witness :
    listDevices true "" "no devices here" = fallbackDevices ∧
    (∃ l ∈ splitLines ("" ++ "\n" ++ "[dshow @ 0] \"Mic\" (audio)"),
      deviceLineMatch (jsTrim l).data = some ("Mic", DevKind.audio)) := by
  constructor
  · exact listDevices_amended.2.2.1 "" "no devices here" (by decide)
  · exact listDevices_amended.2.2.2.2.2 ("" ++ "\n" ++ "[dshow @ 0] \"Mic\" (audio)")
      "Mic" (by decide)

end StreamTo
